import Mathlib

/-!
Verification development for the symphony-room-modifier repository
(src/symphony_room_modifier/symphony_room_modifier.py).

The Python module is shallowly embedded below:

* the pure helpers (`_make_b64_id_safe`, `_string_to_bool`, `_bool_to_string`,
  `_check_room_modified`, `_csv_room_settings_to_v3_room_attributes`,
  `_room_details_to_csv_dict`) are translated directly into Lean functions;
* the stateful reconciliation engine (`update_room`, `update_rooms` and the
  membership helpers) is translated into explicit state passing over a
  `World` describing the remote room together with a trace of gateway calls;
  the remote Symphony API itself (an external collaborator of this
  repository) is modelled from the specification of the Room Access Gateway
  contract;
* Python exceptions become `Except` values; the structured error reasons the
  source pattern-matches on become the `Reason` inductive;
* the in-place mutation of the module-level CSV field-name list is modelled
  by explicit state passing of that list.
-/

namespace SymphonyRoomModifier

/-! ## Data model

`V3RoomAttributes` carries the seven modifiable room settings.  In the
generated Symphony BDK models an attribute is either set (possibly from a
JSON response) or absent from the data store; `attribute in obj` is true
exactly for the set attributes, and the source only ever stores non-`None`
values (`room_attributes[attribute_name] = val` with `val is not None`).
`Option` therefore models presence: `none` is an absent attribute. -/

structure V3RoomAttributes where
  name : Option String
  description : Option String
  members_can_invite : Option Bool
  discoverable : Option Bool
  copy_protected : Option Bool
  view_history : Option Bool
  pinned_message_id : Option String
deriving DecidableEq, Repr

/-- The result of the Python constructor call `V3RoomAttributes()`: no
attribute set. -/
def emptyRoomAttributes : V3RoomAttributes :=
  ⟨none, none, none, none, none, none, none⟩

/-- Room system metadata.  Of the fields of `V3RoomSystemInfo` only the
stream id is read by the code paths under verification (the `streamId`
CSV column); none of the seven modifiable attribute names collides with a
system-info field, so the `attribute in room_system_info` test of
`_room_details_to_csv_dict` succeeds only for `id`. -/
structure V3RoomSystemInfo where
  id : String
deriving DecidableEq, Repr

/-- A room detail as returned by `get_room_info` / `update_room` of the
gateway: attributes plus system metadata. -/
structure V3RoomDetail where
  room_attributes : V3RoomAttributes
  room_system_info : V3RoomSystemInfo
deriving DecidableEq, Repr

/-- An entry of the stream list consumed by `update_rooms`; only `id` (and
the room name, used for logging) are read. -/
structure V2AdminStreamInfo where
  id : String
  room_name : String
deriving DecidableEq, Repr

instance {ε α : Type} [DecidableEq ε] [DecidableEq α] : DecidableEq (Except ε α) := fun x y =>
  match x, y with
  | Except.ok a, Except.ok b =>
    if h : a = b then isTrue (by rw [h])
    else isFalse (by intro hc; cases hc; exact h rfl)
  | Except.error a, Except.error b =>
    if h : a = b then isTrue (by rw [h])
    else isFalse (by intro hc; cases hc; exact h rfl)
  | Except.ok _, Except.error _ => isFalse (by intro hc; cases hc)
  | Except.error _, Except.ok _ => isFalse (by intro hc; cases hc)

/-! ## Pure string helpers (source lines 540-560) -/

/-- Python `str.endswith` with a one-character suffix, computed on the
character list (the standard library routine works on byte positions and
does not reduce inside the kernel). -/
def strEndsWithChar (s : String) (c : Char) : Bool :=
  match s.data.getLast? with
  | some d => d = c
  | none => false

/-- Whether `l` starts with `pat` (used to implement Python substring
containment). -/
def beginsWith : List Char → List Char → Bool
  | [], _ => true
  | _ :: _, [] => false
  | p :: ps, c :: cs => p = c && beginsWith ps cs

/-- Python substring containment `pat in l` on character lists. -/
def containsSub (pat : List Char) : List Char → Bool
  | [] => beginsWith pat []
  | c :: cs => beginsWith pat (c :: cs) || containsSub pat cs

/-- Python `str.rstrip` / `str.strip` whitespace, restricted to the ASCII
whitespace characters (the identifiers in this code base are ASCII). -/
def pyIsSpace (c : Char) : Bool :=
  c = ' ' || c = '\t' || c = '\n' || c = '\r' || c = '\x0b' || c = '\x0c'

/-- Python `str.rstrip(chars)`: drop the longest trailing run of characters
satisfying `p`. -/
def rstripBy (p : Char → Bool) (l : List Char) : List Char :=
  (l.reverse.dropWhile p).reverse

/-- Python `str.strip()`: drop leading and trailing whitespace. -/
def pyStrip (s : String) : String :=
  String.mk (rstripBy pyIsSpace (s.data.dropWhile pyIsSpace))

/-- Source `_make_b64_id_safe` (line 558):
`id.replace("+","-").replace("/","_").rstrip("=").rstrip()`. -/
def _make_b64_id_safe (id : String) : String :=
  let step1 := id.data.map (fun c => if c = '+' then '-' else c)
  let step2 := step1.map (fun c => if c = '/' then '_' else c)
  let step3 := rstripBy (fun c => c = '=') step2
  String.mk (rstripBy pyIsSpace step3)

/-- Python `str.lower()`, restricted to ASCII case mapping (all the
recognised boolean tokens are ASCII). -/
def pyLower (s : String) : String :=
  String.mk (s.data.map Char.toLower)

/-- The tokens `_string_to_bool` accepts as true (source line 551). -/
def trueStrings : List String := ["y", "yes", "t", "true", "on", "1"]

/-- The tokens `_string_to_bool` accepts as false (source line 553). -/
def falseStrings : List String := ["n", "no", "f", "false", "off", "0"]

/-- Source `_string_to_bool` (line 548): lower-case the input, return the
matching boolean, and raise on anything else (the source executes
`raise None`, which in Python raises a `TypeError`; the embedding models
any raise as `Except.error ()`). -/
def _string_to_bool (val : String) : Except Unit Bool :=
  let val := pyLower val
  if trueStrings.contains val then Except.ok true
  else if falseStrings.contains val then Except.ok false
  else Except.error ()

/-- Source `_bool_to_string` (line 544): `str(val).lower()` on a boolean. -/
def _bool_to_string (val : Bool) : String :=
  if val then "true" else "false"

/-! ## The modification predicate (source lines 562-568) -/

/-- One iteration of the `_check_room_modified` loop for a single attribute:
`attribute in new_settings and attribute in old_settings and
new_settings[attribute] is not None and
new_settings[attribute] != old_settings[attribute]`.
With `Option` modelling presence, `some`-ness covers both the containment
test and the `is not None` test. -/
def fieldTriggers {α : Type} [DecidableEq α] (old new : Option α) : Bool :=
  match new, old with
  | some n, some o => decide (n ≠ o)
  | _, _ => false

/-- Source `_check_room_modified` (line 562).  The loop ranges over the keys
of `ROOM_TO_CSV_ROOM_MAP`; its first key `id` is not an attribute of
`V3RoomAttributes`, so its containment test is always false and it never
contributes. -/
def _check_room_modified (old_settings new_settings : V3RoomAttributes) : Bool :=
  fieldTriggers old_settings.name new_settings.name ||
  fieldTriggers old_settings.description new_settings.description ||
  fieldTriggers old_settings.members_can_invite new_settings.members_can_invite ||
  fieldTriggers old_settings.discoverable new_settings.discoverable ||
  fieldTriggers old_settings.copy_protected new_settings.copy_protected ||
  fieldTriggers old_settings.view_history new_settings.view_history ||
  fieldTriggers old_settings.pinned_message_id new_settings.pinned_message_id

/-- Modelled from the spec, for comparison with `_check_room_modified`: one
field of the modification predicate as the specification words it — a field
present (non-null) in desired differs from the corresponding field in
current, *including the case where the field is absent from current*. -/
def specFieldTriggers {α : Type} [DecidableEq α] (old new : Option α) : Bool :=
  match new with
  | some n =>
    match old with
    | some o => decide (n ≠ o)
    | none => true
  | none => false

/-- Modelled from the spec: the modification predicate as the specification
states it, used only to compare against the source `_check_room_modified`. -/
def check_room_modified_spec (old_settings new_settings : V3RoomAttributes) : Bool :=
  specFieldTriggers old_settings.name new_settings.name ||
  specFieldTriggers old_settings.description new_settings.description ||
  specFieldTriggers old_settings.members_can_invite new_settings.members_can_invite ||
  specFieldTriggers old_settings.discoverable new_settings.discoverable ||
  specFieldTriggers old_settings.copy_protected new_settings.copy_protected ||
  specFieldTriggers old_settings.view_history new_settings.view_history ||
  specFieldTriggers old_settings.pinned_message_id new_settings.pinned_message_id

/-! ## CSV cell mapping (source lines 500-538)

`_csv_room_settings_to_v3_room_attributes` processes each mapped CSV column
through a common pipeline driven by the type tag from
`CSV_ROOM_TO_ROOM_ATTRIBUTES_MAP` (`string*`, `string`, `bool`, `bool+`,
`string_b64`).  The pipeline is factored below exactly as in the source:
strip, empty/explicit-empty handling, the required-field rule, then the
bool / b64 special cases. -/

/-- The two-character string consisting of two single quotes (built from
code points to keep the file free of quote characters). -/
def squotePair : String := String.mk [Char.ofNat 39, Char.ofNat 39]

/-- The two-character string consisting of two double quotes. -/
def dquotePair : String := "\"\""

/-- Source lines 510-521: `val = room_row[attribute].strip()`; empty cells
become `None`; the literal two-quote cells become the empty string; a
`*`-tagged (required) attribute set to the empty string is ignored. -/
def canonCell (attribute_type : String) (raw : String) : Option String :=
  let val := pyStrip raw
  let stage1 : Option String :=
    if val = "" then none
    else if val = dquotePair || val = squotePair then some ""
    else some val
  match stage1 with
  | none => none
  | some v =>
    if strEndsWithChar attribute_type '*' && v = "" then none else some v

/-- Source line 532: the b64 special case fires only when the literal
substring `_b64_` occurs in the type tag (Python `in`).  Note that the tag
`string_b64` used for `pinnedMessageId` does *not* contain `_b64_` (there is
no trailing underscore), so in the source this branch is dead. -/
def typeTagHasB64 (attribute_type : String) : Bool :=
  containsSub ([Char.ofNat 95] ++ "b64".data ++ [Char.ofNat 95]) attribute_type.data

/-- The cell pipeline for a string-typed column (tags `string`, `string*`,
`string_b64`): canonicalise, then apply the (dead, see `typeTagHasB64`)
b64 encoding branch. -/
def parseStringCell (attribute_type : String) (raw : String) : Option String :=
  match canonCell attribute_type raw with
  | none => none
  | some v =>
    if typeTagHasB64 attribute_type then some (_make_b64_id_safe v)
    else some v

/-- The cell pipeline for a bool-typed column (tags `bool`, `bool+`):
canonicalise, parse through `_string_to_bool` (which can raise), then — per
source lines 527-530 — discard the parsed value unconditionally when the
tag is `bool+` (the source comment promises to ignore only `False`, but the
assignment `val = None` is not guarded by the value). -/
def parseBoolCell (attribute_type : String) (raw : String) : Except Unit (Option Bool) :=
  match canonCell attribute_type raw with
  | none => Except.ok none
  | some v =>
    match _string_to_bool v with
    | Except.error e => Except.error e
    | Except.ok b =>
      if strEndsWithChar attribute_type '+' then Except.ok none
      else Except.ok (some b)

/-- A CSV row restricted to the columns of
`CSV_ROOM_TO_ROOM_ATTRIBUTES_MAP` plus the mandatory `streamId` column.
Further columns (the `(X)`-suffixed non-modifiable exports and the result
columns) are never in that map, so the parser ignores them. -/
structure CsvRow where
  streamId : String
  name : String
  description : String
  membersCanInvite : String
  discoverable : String
  copyProtected : String
  viewHistory : String
  pinnedMessageId : String
deriving DecidableEq, Repr

/-- Source `_csv_room_settings_to_v3_room_attributes` (line 500): build a
`V3RoomAttributes` from the mapped cells, assigning only non-`None` values;
a malformed boolean cell raises out of the whole row. -/
def _csv_room_settings_to_v3_room_attributes (room_row : CsvRow) : Except Unit V3RoomAttributes :=
  match parseBoolCell "bool" room_row.membersCanInvite with
  | Except.error e => Except.error e
  | Except.ok mci =>
  match parseBoolCell "bool" room_row.discoverable with
  | Except.error e => Except.error e
  | Except.ok disc =>
  match parseBoolCell "bool+" room_row.copyProtected with
  | Except.error e => Except.error e
  | Except.ok cp =>
  match parseBoolCell "bool" room_row.viewHistory with
  | Except.error e => Except.error e
  | Except.ok vh =>
  Except.ok
    { name := parseStringCell "string*" room_row.name
      description := parseStringCell "string" room_row.description
      members_can_invite := mci
      discoverable := disc
      copy_protected := cp
      view_history := vh
      pinned_message_id := parseStringCell "string_b64" room_row.pinnedMessageId }

/-- Cell written by `_room_details_to_csv_dict` for a string attribute:
the value when set, the empty cell otherwise (source lines 466-478). -/
def cellOfOptString (v : Option String) : String :=
  match v with
  | some s => s
  | none => ""

/-- Cell written by `_room_details_to_csv_dict` for a boolean attribute:
`_bool_to_string` of the value when set, the empty cell otherwise. -/
def cellOfOptBool (v : Option Bool) : String :=
  match v with
  | some b => _bool_to_string b
  | none => ""

/-- Source `_room_details_to_csv_dict` (line 457) restricted to the
modifiable columns: `id` resolves from the system info, the seven settings
resolve from the room attributes. -/
def _room_details_to_csv_dict (room : V3RoomDetail) : CsvRow :=
  { streamId := room.room_system_info.id
    name := cellOfOptString room.room_attributes.name
    description := cellOfOptString room.room_attributes.description
    membersCanInvite := cellOfOptBool room.room_attributes.members_can_invite
    discoverable := cellOfOptBool room.room_attributes.discoverable
    copyProtected := cellOfOptBool room.room_attributes.copy_protected
    viewHistory := cellOfOptBool room.room_attributes.view_history
    pinnedMessageId := cellOfOptString room.room_attributes.pinned_message_id }

/-! ## The module-level CSV header lists (source lines 75-86, 164-170, 196-203)

`CSV_STREAM_FIELD_NAMES` is a module-level Python list.  Both
`export_rooms_to_csv` and `update_rooms_from_csv` bind a local name to that
very list object and then extend it with `+=`, which mutates the shared
list in place.  The embedding passes the current value of the global list
explicitly and returns the header written together with the new value of
the global. -/

/-- Initial value of `CSV_STREAM_FIELD_NAMES`, built from the
`mapped_key` entries of `ROOM_TO_CSV_ROOM_MAP` in declaration order. -/
def CSV_STREAM_FIELD_NAMES_initial : List String :=
  ["streamId", "name", "description", "membersCanInvite", "discoverable",
   "copyProtected", "viewHistory", "pinnedMessageId"]

/-- `CSV_STREAM_NON_MODIFIABLE_FIELD_NAMES`: the `(X)`-suffixed columns. -/
def CSV_STREAM_NON_MODIFIABLE_FIELD_NAMES : List String :=
  ["public (X)", "readOnly (X)", "crossPod (X)", "multiLateralRoom (X)",
   "active (X)", "keywords (X)", "createdByUserId (X)", "creationDate (X)"]

/-- `CSV_RESULTS_STREAM_FIELD_NAMES`. -/
def CSV_RESULTS_STREAM_FIELD_NAMES : List String := ["status", "reason"]

/-- Header behaviour of `export_rooms_to_csv` (source lines 164-170):
`field_names = CSV_STREAM_FIELD_NAMES` aliases the global; the conditional
`field_names += CSV_STREAM_NON_MODIFIABLE_FIELD_NAMES` extends the global
in place.  Returns (header written, new global list). -/
def export_rooms_to_csv_header (globalFields : List String) (export_non_modifiable : Bool) :
    List String × List String :=
  let field_names :=
    if export_non_modifiable then globalFields ++ CSV_STREAM_NON_MODIFIABLE_FIELD_NAMES
    else globalFields
  (field_names, field_names)

/-- Header behaviour of `update_rooms_from_csv` (source lines 196-203):
as above, and then `fields += CSV_RESULTS_STREAM_FIELD_NAMES`
unconditionally, again mutating the global.  Returns (header written, new
global list). -/
def update_rooms_from_csv_header (globalFields : List String) (export_non_modifiable : Bool) :
    List String × List String :=
  let fields :=
    if export_non_modifiable then globalFields ++ CSV_STREAM_NON_MODIFIABLE_FIELD_NAMES
    else globalFields
  let fields := fields ++ CSV_RESULTS_STREAM_FIELD_NAMES
  (fields, fields)

/-! ## The reconciliation engine (source lines 346-455)

The engine talks to the remote Symphony API through the Room Access
Gateway.  The gateway is an external collaborator of this repository; its
behaviour below is modelled from the specification of the gateway contract
(section 6 of the design spec): which calls fail, and with which structured
reason, as a function of the room state.  The engine itself
(`update_room`, the recovery helpers and `update_rooms`) is translated
directly from the source. -/

/-- Structured error reasons.  The first five correspond to the known
message constants of source lines 29-33 (plus the stream-not-found error an
unknown stream produces, which the engine treats as an unrecognised
reason); `fuelExhausted` is a modelling artifact bounding the recursion of
`update_room` (the Python recursion is unbounded) and is proven unreachable
in every run the theorems below consider. -/
inductive Reason
  | notRoomOwner
  | notRoomMember
  | cannotJoinMultilateral
  | cannotDemoteLastOwner
  | notEntitledPublicOwner
  | streamNotFound
  | fuelExhausted
deriving DecidableEq, Repr

/-- One gateway call together with its outcome, recorded in the trace. -/
inductive Call
  | getInfo (ok : Bool)
  | applySettings (ok : Bool)
  | addMember (ok : Bool)
  | removeMember (ok : Bool)
  | promote (ok : Bool)
  | demote (ok : Bool)
deriving DecidableEq, Repr

/-- The state of the remote room as the gateway sees it, together with the
relation of the bot account to the room. -/
structure World where
  roomExists : Bool
  attrs : V3RoomAttributes
  sys : V3RoomSystemInfo
  botIsMember : Bool
  botIsOwner : Bool
  /-- Number of owners of the room other than the bot (demoting the bot
  fails exactly when it is the sole owner). -/
  otherOwners : Nat
  /-- Whether the bot is entitled to join the room (adding the bot fails
  with the multilateral-room reason otherwise). -/
  joinAllowed : Bool
deriving DecidableEq, Repr

/-- Engine state: the remote world plus the trace of gateway calls. -/
structure St where
  world : World
  trace : List Call
deriving DecidableEq, Repr

/-- Remote settings application: every field set in the request overwrites
the current value, absent fields are left unchanged. -/
def updateField {α : Type} (cur new : Option α) : Option α :=
  match new with
  | some v => some v
  | none => cur

/-- The room attributes after the gateway applies `des` on top of `cur`. -/
def applySettingsAttrs (cur des : V3RoomAttributes) : V3RoomAttributes :=
  { name := updateField cur.name des.name
    description := updateField cur.description des.description
    members_can_invite := updateField cur.members_can_invite des.members_can_invite
    discoverable := updateField cur.discoverable des.discoverable
    copy_protected := updateField cur.copy_protected des.copy_protected
    view_history := updateField cur.view_history des.view_history
    pinned_message_id := updateField cur.pinned_message_id des.pinned_message_id }

/-- Gateway `getRoomDetail`: fails when the stream does not exist. -/
def gw_get_room_info (s : St) : Except Reason V3RoomDetail × St :=
  if s.world.roomExists then
    (Except.ok ⟨s.world.attrs, s.world.sys⟩, ⟨s.world, s.trace ++ [Call.getInfo true]⟩)
  else
    (Except.error Reason.streamNotFound, ⟨s.world, s.trace ++ [Call.getInfo false]⟩)

/-- Gateway `applySettings`: fails with the not-a-room-owner reason unless
the bot owns the room; on success the room attributes are updated and the
new detail returned. -/
def gw_update_room (settings : V3RoomAttributes) (s : St) : Except Reason V3RoomDetail × St :=
  if !s.world.roomExists then
    (Except.error Reason.streamNotFound, ⟨s.world, s.trace ++ [Call.applySettings false]⟩)
  else if !s.world.botIsOwner then
    (Except.error Reason.notRoomOwner, ⟨s.world, s.trace ++ [Call.applySettings false]⟩)
  else
    let newAttrs := applySettingsAttrs s.world.attrs settings
    (Except.ok ⟨newAttrs, s.world.sys⟩,
      ⟨{ s.world with attrs := newAttrs }, s.trace ++ [Call.applySettings true]⟩)

/-- Gateway `addMember` for the bot itself: fails with the multilateral
reason when the bot may not join. -/
def gw_add_member (s : St) : Except Reason Unit × St :=
  if !s.world.joinAllowed then
    (Except.error Reason.cannotJoinMultilateral, ⟨s.world, s.trace ++ [Call.addMember false]⟩)
  else
    (Except.ok (), ⟨{ s.world with botIsMember := true }, s.trace ++ [Call.addMember true]⟩)

/-- Gateway `promoteToOwner` for the bot itself: fails with the
not-a-room-member reason when the bot is not in the room. -/
def gw_promote (s : St) : Except Reason Unit × St :=
  if !s.world.botIsMember then
    (Except.error Reason.notRoomMember, ⟨s.world, s.trace ++ [Call.promote false]⟩)
  else
    (Except.ok (), ⟨{ s.world with botIsOwner := true }, s.trace ++ [Call.promote true]⟩)

/-- Gateway `demoteFromOwner` for the bot itself: fails with the last-owner
reason when the bot is the sole owner of the room. -/
def gw_demote (s : St) : Except Reason Unit × St :=
  if s.world.botIsOwner && s.world.otherOwners == 0 then
    (Except.error Reason.cannotDemoteLastOwner, ⟨s.world, s.trace ++ [Call.demote false]⟩)
  else
    (Except.ok (), ⟨{ s.world with botIsOwner := false }, s.trace ++ [Call.demote true]⟩)

/-- Gateway `removeMember` for the bot itself: always succeeds; a removed
member is in particular no longer an owner. -/
def gw_remove_member (s : St) : Except Reason Unit × St :=
  (Except.ok (),
    ⟨{ s.world with botIsMember := false, botIsOwner := false },
      s.trace ++ [Call.removeMember true]⟩)

/-- Source `_add_self_to_room` (line 422): the multilateral-room failure is
logged and swallowed; any other failure re-raises. -/
def _add_self_to_room (s : St) : Except Reason Unit × St :=
  match gw_add_member s with
  | (Except.ok _, s1) => (Except.ok (), s1)
  | (Except.error Reason.cannotJoinMultilateral, s1) => (Except.ok (), s1)
  | (Except.error e, s1) => (Except.error e, s1)

/-- Source `_promote_self_to_owner` (line 434): direct gateway call. -/
def _promote_self_to_owner (s : St) : Except Reason Unit × St :=
  gw_promote s

/-- Source `_remove_self_from_room` (line 440): direct gateway call. -/
def _remove_self_from_room (s : St) : Except Reason Unit × St :=
  gw_remove_member s

/-- Source `_demote_self_for_room` (line 445): the last-owner failure is
logged and swallowed; any other failure re-raises. -/
def _demote_self_for_room (s : St) : Except Reason Unit × St :=
  match gw_demote s with
  | (Except.ok _, s1) => (Except.ok (), s1)
  | (Except.error Reason.cannotDemoteLastOwner, s1) => (Except.ok (), s1)
  | (Except.error e, s1) => (Except.error e, s1)

/-- The try-body of `update_room` (source lines 359-368): optional
pre-check (fetch, compare, return current detail unchanged when nothing
differs), then the direct settings application. -/
def attempt_update (settings : V3RoomAttributes) (pre_check : Bool) (s : St) :
    Except Reason V3RoomDetail × St :=
  if pre_check then
    match gw_get_room_info s with
    | (Except.ok current_room_info, s1) =>
      if _check_room_modified current_room_info.room_attributes settings then
        gw_update_room settings s1
      else
        (Except.ok current_room_info, s1)
    | (Except.error e, s1) => (Except.error e, s1)
  else
    gw_update_room settings s

/-- Source lines 377-390, the handler of a failure `inner_err` raised
inside the promotion recovery: when the reason is the not-a-room-member
message, run membership recovery (`_add_self_and_update_room` followed by
`_remove_self_from_room`); any failure inside that path is re-raised by
`_update_room_exception_handler` as `inner_err`, which the enclosing
`except` converts — again through the handler — into the *original*
not-a-room-owner error `err`, and the same conversion applies to any other
`inner_err`.  `retry` is the recursive call `update_room(..., False)`. -/
def recover_membership (retry : St → Except Reason V3RoomDetail × St)
    (inner_err : Reason) (s : St) : Except Reason V3RoomDetail × St :=
  match inner_err with
  | Reason.notRoomMember =>
    match _add_self_to_room s with
    | (Except.error _, s1) => (Except.error Reason.notRoomOwner, s1)
    | (Except.ok _, s1) =>
      match _promote_self_to_owner s1 with
      | (Except.error _, s2) => (Except.error Reason.notRoomOwner, s2)
      | (Except.ok _, s2) =>
        match retry s2 with
        | (Except.error _, s3) => (Except.error Reason.notRoomOwner, s3)
        | (Except.ok updated_stream, s3) =>
          match _remove_self_from_room s3 with
          | (Except.error _, s4) => (Except.error Reason.notRoomOwner, s4)
          | (Except.ok _, s4) => (Except.ok updated_stream, s4)
  | _ => (Except.error Reason.notRoomOwner, s)

/-- Source `update_room` (line 346).  The fuel argument bounds the depth of
the recursion `update_room → recovery → update_room(pre_check=False)`,
which is unbounded in the source; `Reason.fuelExhausted` never occurs in
the runs considered by the theorems below.  Control flow:

* try body (`attempt_update`); on success return the detail;
* on the not-a-room-owner reason, promote and retry without pre-check
  (`_promote_self_and_update_room`), then demote back
  (`_demote_self_for_room`); a failure anywhere in that sequence is
  dispatched by `recover_membership`;
* any other reason is re-raised by `_update_room_exception_handler`. -/
def update_room : Nat → V3RoomAttributes → Bool → St → Except Reason V3RoomDetail × St
  | 0, _, _, s => (Except.error Reason.fuelExhausted, s)
  | fuel + 1, settings, pre_check, s =>
    match attempt_update settings pre_check s with
    | (Except.ok updated_stream, s1) => (Except.ok updated_stream, s1)
    | (Except.error Reason.notRoomOwner, s1) =>
      match _promote_self_to_owner s1 with
      | (Except.error inner_err, s2) =>
        recover_membership (update_room fuel settings false) inner_err s2
      | (Except.ok _, s2) =>
        match update_room fuel settings false s2 with
        | (Except.error inner_err, s3) =>
          recover_membership (update_room fuel settings false) inner_err s3
        | (Except.ok updated_stream, s3) =>
          match _demote_self_for_room s3 with
          | (Except.ok _, s4) => (Except.ok updated_stream, s4)
          | (Except.error inner_err, s4) =>
            recover_membership (update_room fuel settings false) inner_err s4
    | (Except.error e, s1) => (Except.error e, s1)

/-- Environment for the bulk driver: the world of each room, keyed by the
normalised stream id. -/
def Env : Type := String → World

/-- Source `update_rooms` (line 302): iterate the streams, update each, and
append the result on success; on any exception log and continue — nothing
is appended for the failed room.  The environment is threaded so that
changes a room update makes (including partial recovery steps before a
failure) persist. -/
def update_rooms (fuel : Nat) (streams : List V2AdminStreamInfo)
    (settings : V3RoomAttributes) (pre_check : Bool) (env : Env) :
    List V3RoomDetail × Env :=
  match streams with
  | [] => ([], env)
  | stream :: rest =>
    let stream_id := _make_b64_id_safe stream.id
    let out := update_room fuel settings pre_check ⟨env stream_id, []⟩
    let env1 : Env := fun i => if i = stream_id then out.2.world else env i
    let tailOut := update_rooms fuel rest settings pre_check env1
    match out.1 with
    | Except.ok updated_room => (updated_room :: tailOut.1, tailOut.2)
    | Except.error _ => (tailOut.1, tailOut.2)

/-! ## Helper lemmas

The lemmas of this section evaluate or bound runs of the engine; they are
shared by the claim theorems below. -/

theorem fieldTriggers_updateField {α : Type} [DecidableEq α] (cur new : Option α) :
    fieldTriggers (updateField cur new) new = false := by
  cases new <;> simp [updateField, fieldTriggers]

theorem check_room_modified_applySettings (cur des : V3RoomAttributes) :
    _check_room_modified (applySettingsAttrs cur des) des = false := by
  simp [_check_room_modified, applySettingsAttrs, fieldTriggers_updateField]

def applyOkCount (t : List Call) : Nat :=
  t.countP (fun c => decide (c = Call.applySettings true))

theorem applyOkCount_append (t u : List Call) :
    applyOkCount (t ++ u) = applyOkCount t + applyOkCount u := by
  simp [applyOkCount, List.countP_append]

theorem attempt_update_ok (settings : V3RoomAttributes) (pc : Bool) (s : St) (d : V3RoomDetail) (s1 : St)
    (h : attempt_update settings pc s = (Except.ok d, s1)) :
    s1.world.roomExists = true ∧
    _check_room_modified s1.world.attrs settings = false ∧
    applyOkCount s1.trace ≤ applyOkCount s.trace + 1 := by
  unfold attempt_update gw_get_room_info gw_update_room at h
  split at h
  · split at h
    · rename_i current s1i heq
      split at heq
      · simp only [Prod.mk.injEq, Except.ok.injEq] at heq
        obtain ⟨hc, hs⟩ := heq
        subst hs
        subst hc
        rename_i hex
        split at h
        · split at h
          · simp_all
          · split at h
            · simp_all
            · simp only [Prod.mk.injEq, Except.ok.injEq] at h
              obtain ⟨hd, hs1⟩ := h
              subst hs1
              refine ⟨hex, check_room_modified_applySettings _ _, ?_⟩
              simp [applyOkCount_append,
                    show applyOkCount [Call.getInfo true, Call.applySettings true] = 1 from rfl]
        · simp only [Prod.mk.injEq, Except.ok.injEq] at h
          obtain ⟨hd, hs1⟩ := h
          subst hs1
          rename_i hmod
          refine ⟨hex, by simp_all, ?_⟩
          simp [applyOkCount_append,
                show applyOkCount [Call.getInfo true] = 0 from rfl]
      · simp at heq
    · simp_all
  · split at h
    · simp_all
    · split at h
      · simp_all
      · simp only [Prod.mk.injEq, Except.ok.injEq] at h
        obtain ⟨hd, hs1⟩ := h
        subst hs1
        rename_i hexn hown
        refine ⟨by simpa using hexn, check_room_modified_applySettings _ _, ?_⟩
        simp [applyOkCount_append,
              show applyOkCount [Call.applySettings true] = 1 from rfl]

theorem attempt_update_err (settings : V3RoomAttributes) (pc : Bool) (s : St) (e : Reason) (s1 : St)
    (h : attempt_update settings pc s = (Except.error e, s1)) :
    applyOkCount s1.trace = applyOkCount s.trace := by
  unfold attempt_update gw_get_room_info gw_update_room at h
  split at h
  · split at h
    · rename_i current s1i heq
      split at heq
      · simp only [Prod.mk.injEq, Except.ok.injEq] at heq
        obtain ⟨hc, hs⟩ := heq
        subst hs
        subst hc
        split at h
        · split at h
          · simp only [Prod.mk.injEq, Except.error.injEq] at h
            obtain ⟨he, hs1⟩ := h
            subst hs1
            simp [applyOkCount_append, show applyOkCount [Call.getInfo true, Call.applySettings false] = 0 from rfl]
          · split at h
            · simp only [Prod.mk.injEq, Except.error.injEq] at h
              obtain ⟨he, hs1⟩ := h
              subst hs1
              simp [applyOkCount_append, show applyOkCount [Call.getInfo true, Call.applySettings false] = 0 from rfl]
            · simp at h
        · simp at h
      · simp at heq
    · rename_i e0 s1i heq
      split at heq
      · simp at heq
      · simp only [Prod.mk.injEq, Except.error.injEq] at heq
        obtain ⟨he0, hs⟩ := heq
        simp only [Prod.mk.injEq, Except.error.injEq] at h
        obtain ⟨he, hs1⟩ := h
        subst hs1
        subst hs
        simp [applyOkCount_append, show applyOkCount [Call.getInfo false] = 0 from rfl]
  · split at h
    · simp only [Prod.mk.injEq, Except.error.injEq] at h
      obtain ⟨he, hs1⟩ := h
      subst hs1
      simp [applyOkCount_append, show applyOkCount [Call.applySettings false] = 0 from rfl]
    · split at h
      · simp only [Prod.mk.injEq, Except.error.injEq] at h
        obtain ⟨he, hs1⟩ := h
        subst hs1
        simp [applyOkCount_append, show applyOkCount [Call.applySettings false] = 0 from rfl]
      · simp at h

theorem add_self_shape (s : St) :
    (_add_self_to_room s).1 = Except.ok () ∧
    (_add_self_to_room s).2.world.attrs = s.world.attrs ∧
    (_add_self_to_room s).2.world.roomExists = s.world.roomExists ∧
    applyOkCount (_add_self_to_room s).2.trace = applyOkCount s.trace := by
  by_cases hj : s.world.joinAllowed = true
  · simp [_add_self_to_room, gw_add_member, hj, applyOkCount_append,
      show applyOkCount [Call.addMember true] = 0 from rfl]
  · simp only [Bool.not_eq_true] at hj
    simp [_add_self_to_room, gw_add_member, hj, applyOkCount_append,
      show applyOkCount [Call.addMember false] = 0 from rfl]

theorem demote_self_shape (s : St) :
    (_demote_self_for_room s).1 = Except.ok () ∧
    (_demote_self_for_room s).2.world.attrs = s.world.attrs ∧
    (_demote_self_for_room s).2.world.roomExists = s.world.roomExists ∧
    applyOkCount (_demote_self_for_room s).2.trace = applyOkCount s.trace := by
  by_cases hc : (s.world.botIsOwner && s.world.otherOwners == 0) = true
  · simp [_demote_self_for_room, gw_demote, hc, applyOkCount_append,
      show applyOkCount [Call.demote false] = 0 from rfl]
  · simp only [Bool.not_eq_true] at hc
    simp [_demote_self_for_room, gw_demote, hc, applyOkCount_append,
      show applyOkCount [Call.demote true] = 0 from rfl]

theorem promote_self_shape (s : St) :
    (_promote_self_to_owner s).2.world.attrs = s.world.attrs ∧
    (_promote_self_to_owner s).2.world.roomExists = s.world.roomExists ∧
    applyOkCount (_promote_self_to_owner s).2.trace = applyOkCount s.trace := by
  by_cases hm : s.world.botIsMember = true
  · simp [_promote_self_to_owner, gw_promote, hm, applyOkCount_append,
      show applyOkCount [Call.promote true] = 0 from rfl]
  · simp only [Bool.not_eq_true] at hm
    simp [_promote_self_to_owner, gw_promote, hm, applyOkCount_append,
      show applyOkCount [Call.promote false] = 0 from rfl]

theorem remove_self_shape (s : St) :
    (_remove_self_from_room s).1 = Except.ok () ∧
    (_remove_self_from_room s).2.world.attrs = s.world.attrs ∧
    (_remove_self_from_room s).2.world.roomExists = s.world.roomExists ∧
    applyOkCount (_remove_self_from_room s).2.trace = applyOkCount s.trace := by
  simp [_remove_self_from_room, gw_remove_member, applyOkCount_append,
    show applyOkCount [Call.removeMember true] = 0 from rfl]

def RunInvariant (settings : V3RoomAttributes) (s : St)
    (r : Except Reason V3RoomDetail) (s1 : St) : Prop :=
  match r with
  | Except.ok _ =>
    s1.world.roomExists = true ∧
    _check_room_modified s1.world.attrs settings = false ∧
    applyOkCount s1.trace ≤ applyOkCount s.trace + 1
  | Except.error _ => applyOkCount s1.trace = applyOkCount s.trace

theorem RunInvariant_mono (settings : V3RoomAttributes) {s s1 : St} (s' : St)
    {r : Except Reason V3RoomDetail} (h : RunInvariant settings s' r s1)
    (hc : applyOkCount s'.trace = applyOkCount s.trace) :
    RunInvariant settings s r s1 := by
  cases r with
  | ok d =>
    obtain ⟨h1, h2, h3⟩ := h
    exact ⟨h1, h2, by omega⟩
  | error e =>
    simp only [RunInvariant] at h ⊢
    omega

theorem recover_membership_invariant (settings : V3RoomAttributes)
    (retry : St → Except Reason V3RoomDetail × St)
    (hretry : ∀ s : St, RunInvariant settings s (retry s).1 (retry s).2)
    (inner_err : Reason) (s : St) :
    RunInvariant settings s (recover_membership retry inner_err s).1
      (recover_membership retry inner_err s).2 := by
  cases inner_err
  case notRoomMember =>
    rcases haddeq : _add_self_to_room s with ⟨rAdd, sAdd⟩
    obtain ⟨ha1, ha2, ha3, ha4⟩ := add_self_shape s
    rw [haddeq] at ha1 ha2 ha3 ha4
    dsimp only at ha1 ha2 ha3 ha4
    subst ha1
    rcases hP : _promote_self_to_owner sAdd with ⟨rP, sP⟩
    obtain ⟨hp2, hp3, hp4⟩ := promote_self_shape sAdd
    rw [hP] at hp2 hp3 hp4
    dsimp only at hp2 hp3 hp4
    cases rP with
    | error ie =>
      simp only [recover_membership, haddeq, hP, RunInvariant]
      omega
    | ok u =>
      have hIH := hretry sP
      rcases hR : retry sP with ⟨rR, sR⟩
      rw [hR] at hIH
      dsimp only [RunInvariant] at hIH
      cases rR with
      | error re =>
        simp only [recover_membership, haddeq, hP, hR, RunInvariant]
        omega
      | ok dR =>
        obtain ⟨hr1, hr2, hr3⟩ := hIH
        rcases hremeq : _remove_self_from_room sR with ⟨rRem, sRem⟩
        obtain ⟨hm1, hm2, hm3, hm4⟩ := remove_self_shape sR
        rw [hremeq] at hm1 hm2 hm3 hm4
        dsimp only at hm1 hm2 hm3 hm4
        subst hm1
        simp only [recover_membership, haddeq, hP, hR, hremeq, RunInvariant]
        exact ⟨by rw [hm3]; exact hr1, by rw [hm2]; exact hr2, by omega⟩
  all_goals
    simp [recover_membership, RunInvariant]

theorem update_room_run_invariant :
    ∀ (fuel : Nat) (settings : V3RoomAttributes) (pc : Bool) (s : St),
    RunInvariant settings s (update_room fuel settings pc s).1
      (update_room fuel settings pc s).2 := by
  intro fuel
  induction fuel with
  | zero =>
    intro settings pc s
    simp [update_room, RunInvariant]
  | succ f ih =>
    intro settings pc s
    rw [update_room]
    rcases hA : attempt_update settings pc s with ⟨rA, sA⟩
    cases rA with
    | ok d =>
      simp only [hA, RunInvariant]
      exact attempt_update_ok settings pc s d sA hA
    | error e =>
      have hcA : applyOkCount sA.trace = applyOkCount s.trace :=
        attempt_update_err settings pc s e sA hA
      cases e
      case notRoomOwner =>
        rcases hP : _promote_self_to_owner sA with ⟨rP, sP⟩
        obtain ⟨hp2, hp3, hp4⟩ := promote_self_shape sA
        rw [hP] at hp2 hp3 hp4
        dsimp only at hp2 hp3 hp4
        cases rP with
        | error ie =>
          simp only [hA, hP]
          exact RunInvariant_mono settings sP
            (recover_membership_invariant settings (update_room f settings false)
              (fun s' => ih settings false s') ie sP) (by omega)
        | ok u =>
          rcases hR : update_room f settings false sP with ⟨rR, sR⟩
          have hIH := ih settings false sP
          rw [hR] at hIH
          dsimp only [RunInvariant] at hIH
          cases rR with
          | error re =>
            simp only [hA, hP, hR]
            exact RunInvariant_mono settings sR
              (recover_membership_invariant settings (update_room f settings false)
                (fun s' => ih settings false s') re sR) (by omega)
          | ok dR =>
            obtain ⟨hr1, hr2, hr3⟩ := hIH
            rcases hdemeq : _demote_self_for_room sR with ⟨rDem, sDem⟩
            obtain ⟨hd1, hd2, hd3, hd4⟩ := demote_self_shape sR
            rw [hdemeq] at hd1 hd2 hd3 hd4
            dsimp only at hd1 hd2 hd3 hd4
            subst hd1
            simp only [hA, hP, hR, hdemeq, RunInvariant]
            exact ⟨by rw [hd3]; exact hr1, by rw [hd2]; exact hr2, by omega⟩
      all_goals
        simp only [hA, RunInvariant]
        omega

/-! ## Scenario evaluation lemmas for the engine -/

theorem update_room_skip_eval (fuel : Nat) (settings : V3RoomAttributes) (w : World)
    (hex : w.roomExists = true) (hmod : _check_room_modified w.attrs settings = false) :
    update_room (fuel + 1) settings true ⟨w, []⟩ =
      (Except.ok ⟨w.attrs, w.sys⟩, ⟨w, [Call.getInfo true]⟩) := by
  simp [update_room, attempt_update, gw_get_room_info, hex, hmod]

theorem update_room_direct_eval (fuel : Nat) (settings : V3RoomAttributes) (w : World) (t : List Call)
    (hex : w.roomExists = true) (how : w.botIsOwner = true) :
    update_room (fuel + 1) settings false ⟨w, t⟩ =
      (Except.ok ⟨applySettingsAttrs w.attrs settings, w.sys⟩,
        ⟨{ w with attrs := applySettingsAttrs w.attrs settings }, t ++ [Call.applySettings true]⟩) := by
  simp [update_room, attempt_update, gw_update_room, hex, how]

theorem update_room_promotion_eval (fuel n : Nat) (a settings : V3RoomAttributes)
    (sy : V3RoomSystemInfo) (j : Bool)
    (hmod : _check_room_modified a settings = true) :
    update_room (fuel + 2) settings true ⟨⟨true, a, sy, true, false, n + 1, j⟩, []⟩ =
      (Except.ok ⟨applySettingsAttrs a settings, sy⟩,
        ⟨⟨true, applySettingsAttrs a settings, sy, true, false, n + 1, j⟩,
          [Call.getInfo true, Call.applySettings false, Call.promote true,
           Call.applySettings true, Call.demote true]⟩) := by
  simp [update_room, attempt_update, gw_get_room_info, gw_update_room, gw_promote,
        _promote_self_to_owner, _demote_self_for_room, gw_demote, hmod]

theorem update_room_promotion_sole_owner_eval (fuel : Nat) (a settings : V3RoomAttributes)
    (sy : V3RoomSystemInfo) (j : Bool)
    (hmod : _check_room_modified a settings = true) :
    update_room (fuel + 2) settings true ⟨⟨true, a, sy, true, false, 0, j⟩, []⟩ =
      (Except.ok ⟨applySettingsAttrs a settings, sy⟩,
        ⟨⟨true, applySettingsAttrs a settings, sy, true, true, 0, j⟩,
          [Call.getInfo true, Call.applySettings false, Call.promote true,
           Call.applySettings true, Call.demote false]⟩) := by
  simp [update_room, attempt_update, gw_get_room_info, gw_update_room, gw_promote,
        _promote_self_to_owner, _demote_self_for_room, gw_demote, hmod]

theorem update_room_membership_eval (fuel nOwn : Nat) (a settings : V3RoomAttributes)
    (sy : V3RoomSystemInfo)
    (hmod : _check_room_modified a settings = true) :
    update_room (fuel + 2) settings true ⟨⟨true, a, sy, false, false, nOwn, true⟩, []⟩ =
      (Except.ok ⟨applySettingsAttrs a settings, sy⟩,
        ⟨⟨true, applySettingsAttrs a settings, sy, false, false, nOwn, true⟩,
          [Call.getInfo true, Call.applySettings false, Call.promote false,
           Call.addMember true, Call.promote true, Call.applySettings true,
           Call.removeMember true]⟩) := by
  simp [update_room, attempt_update, gw_get_room_info, gw_update_room, recover_membership,
        _promote_self_to_owner, gw_promote, _add_self_to_room, gw_add_member,
        _remove_self_from_room, gw_remove_member, hmod]

theorem update_room_membership_eval_nopre (fuel nOwn : Nat) (a settings : V3RoomAttributes)
    (sy : V3RoomSystemInfo) :
    update_room (fuel + 2) settings false ⟨⟨true, a, sy, false, false, nOwn, true⟩, []⟩ =
      (Except.ok ⟨applySettingsAttrs a settings, sy⟩,
        ⟨⟨true, applySettingsAttrs a settings, sy, false, false, nOwn, true⟩,
          [Call.applySettings false, Call.promote false,
           Call.addMember true, Call.promote true, Call.applySettings true,
           Call.removeMember true]⟩) := by
  simp [update_room, attempt_update, gw_get_room_info, gw_update_room, recover_membership,
        _promote_self_to_owner, gw_promote, _add_self_to_room, gw_add_member,
        _remove_self_from_room, gw_remove_member]

/-! ## Cell round-trip lemmas for the CSV mapping -/

theorem fieldTriggers_old_none {α : Type} [DecidableEq α] (new : Option α) :
    fieldTriggers (none : Option α) new = false := by
  cases new <;> rfl

theorem fieldTriggers_new_none {α : Type} [DecidableEq α] (old : Option α) :
    fieldTriggers old (none : Option α) = false := by
  cases old <;> rfl

theorem fieldTriggers_self {α : Type} [DecidableEq α] (v : Option α) :
    fieldTriggers v v = false := by
  cases v <;> simp [fieldTriggers]

theorem bool_cell_roundtrip (v : Option Bool) :
    parseBoolCell "bool" (cellOfOptBool v) = Except.ok v := by
  cases v with
  | none => rfl
  | some b => cases b <;> rfl

theorem bool_plus_cell_dropped (v : Option Bool) :
    parseBoolCell "bool+" (cellOfOptBool v) = Except.ok none := by
  cases v with
  | none => rfl
  | some b => cases b <;> rfl

/-- A set string attribute survives the CSV cell pipeline unchanged when it
is stable under stripping and is not one of the two literal quote-pair
cells; `none` and the empty string survive as an empty cell parsed back to
`none`. -/
def cleanCellString (v : Option String) : Bool :=
  match v with
  | none => true
  | some s => pyStrip s == s && !(s == dquotePair) && !(s == squotePair)

theorem string_cell_roundtrip (tag : String) (htag : typeTagHasB64 tag = false)
    (v : Option String) (hv : cleanCellString v = true) :
    fieldTriggers v (parseStringCell tag (cellOfOptString v)) = false := by
  cases v with
  | none => exact fieldTriggers_old_none _
  | some s =>
    simp only [cleanCellString, Bool.and_eq_true, beq_iff_eq, Bool.not_eq_true',
      beq_eq_false_iff_ne, ne_eq] at hv
    obtain ⟨⟨hstrip, hdq⟩, hsq⟩ := hv
    by_cases hs : s = ""
    · subst hs
      exact fieldTriggers_new_none _
    · have hparse : parseStringCell tag (cellOfOptString (some s)) = some s := by
        simp [parseStringCell, canonCell, cellOfOptString, hstrip, hs, hdq, hsq, htag]
      rw [hparse]
      exact fieldTriggers_self _


theorem mem_rstripBy {p : Char → Bool} {l : List Char} {c : Char}
    (h : c ∈ rstripBy p l) : c ∈ l := by
  unfold rstripBy at h
  rw [List.mem_reverse] at h
  have h2 := (List.dropWhile_sublist p).subset h
  exact List.mem_reverse.mp h2

theorem rstripBy_getLast_not {p : Char → Bool} {l : List Char} {c : Char}
    (h : (rstripBy p l).getLast? = some c) : p c = false := by
  unfold rstripBy at h
  rw [List.getLast?_reverse] at h
  have h2 := List.head?_dropWhile_not p l.reverse
  rw [h] at h2
  exact h2

theorem rstripBy_eq_self {p : Char → Bool} {l : List Char}
    (h : ∀ c, l.getLast? = some c → p c = false) : rstripBy p l = l := by
  unfold rstripBy
  cases hl : l.reverse with
  | nil =>
    have hnil : l = [] := by
      have := congrArg List.reverse hl
      simpa using this
    simp [hnil]
  | cons a t =>
    have ha : l.getLast? = some a := by
      rw [List.getLast?_eq_head?_reverse, hl]
      rfl
    have hpa : p a = false := h a ha
    rw [List.dropWhile_cons_of_neg (by simp [hpa]), ← hl, List.reverse_reverse]

theorem map_eq_self_of {l : List Char} {f : Char → Char} (h : ∀ c ∈ l, f c = c) :
    l.map f = l := by
  induction l with
  | nil => rfl
  | cons a t ih =>
    rw [List.map_cons, h a (List.mem_cons_self a t),
      ih (fun c hc => h c (List.mem_cons_of_mem a hc))]

theorem make_b64_id_safe_chars (x : String) {c : Char}
    (hc : c ∈ (_make_b64_id_safe x).data) : c ≠ '+' ∧ c ≠ '/' := by
  unfold _make_b64_id_safe at hc
  have h2 : c ∈ (x.data.map (fun c => if c = '+' then '-' else c)).map
      (fun c => if c = '/' then '_' else c) := mem_rstripBy (mem_rstripBy hc)
  obtain ⟨y, hy, hfy⟩ := List.mem_map.mp h2
  obtain ⟨z, hz, hfz⟩ := List.mem_map.mp hy
  subst hfy
  constructor
  · by_cases hyc : y = '/'
    · simp [hyc]
    · rw [if_neg hyc]
      subst hfz
      by_cases hzc : z = '+'
      · simp [hzc]
      · simp [hzc]
  · by_cases hyc : y = '/'
    · simp [hyc]
    · simp [hyc]

theorem make_b64_id_safe_getLast_not_space (x : String) {c : Char}
    (h : (_make_b64_id_safe x).data.getLast? = some c) : pyIsSpace c = false := by
  unfold _make_b64_id_safe at h
  exact rstripBy_getLast_not h

theorem make_b64_id_safe_idem_of_no_trailing_eq (x : String)
    (h : (_make_b64_id_safe x).data.getLast? ≠ some '=') :
    _make_b64_id_safe (_make_b64_id_safe x) = _make_b64_id_safe x := by
  have h1 : (_make_b64_id_safe x).data.map (fun c => if c = '+' then '-' else c) =
      (_make_b64_id_safe x).data :=
    map_eq_self_of (fun c hc => if_neg (make_b64_id_safe_chars x hc).1)
  have h2 : (_make_b64_id_safe x).data.map (fun c => if c = '/' then '_' else c) =
      (_make_b64_id_safe x).data :=
    map_eq_self_of (fun c hc => if_neg (make_b64_id_safe_chars x hc).2)
  have h3 : rstripBy (fun c => decide (c = '=')) (_make_b64_id_safe x).data =
      (_make_b64_id_safe x).data := by
    refine rstripBy_eq_self (fun c hcl => ?_)
    have hne : c ≠ '=' := by
      intro hceq
      exact h (by rw [hcl, hceq])
    simp [hne]
  have h4 : rstripBy pyIsSpace (_make_b64_id_safe x).data = (_make_b64_id_safe x).data :=
    rstripBy_eq_self (fun c hcl => make_b64_id_safe_getLast_not_space x hcl)
  conv_lhs => rw [_make_b64_id_safe]
  rw [h1, h2, h3, h4]


theorem fieldTriggers_eq_true_iff {α : Type} [DecidableEq α] (old new : Option α) :
    fieldTriggers old new = true ↔ ∃ o n, old = some o ∧ new = some n ∧ n ≠ o := by
  cases old <;> cases new <;> simp [fieldTriggers]

/-! ## Claims -/

/-- C4, counterexample: room-identifier normalization is *not* idempotent on
every string.  On `a= ` (a letter, a padding `=`, a trailing space) the
first pass strips only the space — `rstrip("=")` runs before `rstrip()` and
sees the space, not the `=` — so a second pass strips the now-trailing `=`
and produces a different string. -/
theorem make_b64_id_safe_not_idempotent :
    _make_b64_id_safe "a= " = "a=" ∧
    _make_b64_id_safe (_make_b64_id_safe "a= ") = "a" ∧
    _make_b64_id_safe (_make_b64_id_safe "a= ") ≠ _make_b64_id_safe "a= " := by
  decide

/-- C4, amended: normalization is idempotent on every string whose
normalized form does not end in `=` (a trailing `=` survives one pass
exactly when the input had `=` before trailing whitespace, and is removed
by the next pass); and `normalize("ab+c/d=")` contains no `+` and no `/`,
and ends in neither `=` nor whitespace. -/
theorem make_b64_id_safe_conditional_idempotence :
    (∀ x : String, (_make_b64_id_safe x).data.getLast? ≠ some '=' →
      _make_b64_id_safe (_make_b64_id_safe x) = _make_b64_id_safe x) ∧
    ('+' ∉ (_make_b64_id_safe "ab+c/d=").data ∧
     '/' ∉ (_make_b64_id_safe "ab+c/d=").data ∧
     (_make_b64_id_safe "ab+c/d=").data.getLast? ≠ some '=' ∧
     (∀ c, (_make_b64_id_safe "ab+c/d=").data.getLast? = some c → pyIsSpace c = false)) := by
  refine ⟨make_b64_id_safe_idem_of_no_trailing_eq, ?_⟩
  refine ⟨by decide, by decide, by decide, ?_⟩
  intro c hc
  have : c = 'd' := by
    rw [show (_make_b64_id_safe "ab+c/d=").data.getLast? = some 'd' from by decide] at hc
    simpa using hc.symm
  rw [this]
  decide

/-- C4 witness: the conditional idempotence applied to the concrete
identifier `ab+c/d=`. -/
theorem make_b64_id_safe_conditional_idempotence_witness :
    _make_b64_id_safe (_make_b64_id_safe "ab+c/d=") = _make_b64_id_safe "ab+c/d=" ∧
    pyIsSpace 'd' = false :=
  ⟨make_b64_id_safe_conditional_idempotence.1 "ab+c/d=" (by decide),
   make_b64_id_safe_conditional_idempotence.2.2.2.2 'd' (by decide)⟩

/-- C6, counterexample: a field that is present (non-null) in the desired
settings but absent from the current settings does *not* make
`_check_room_modified` return true — the loop requires
`attribute in old_settings` as well, so with an empty current record and a
desired name the source predicate answers false while the claimed
predicate (which counts absent-in-current as a difference) answers true. -/
theorem check_room_modified_ignores_absent_current :
    _check_room_modified emptyRoomAttributes
      { emptyRoomAttributes with name := some "Room" } = false ∧
    check_room_modified_spec emptyRoomAttributes
      { emptyRoomAttributes with name := some "Room" } = true := by
  decide

/-- C6, amended: `_check_room_modified` returns true iff at least one field
is present (non-null) in *both* records and the two values differ; a field
absent from either record never triggers, and with every desired field
absent the predicate is false for every current record. -/
theorem check_room_modified_characterization :
    (∀ old_settings new_settings : V3RoomAttributes,
      _check_room_modified old_settings new_settings = true ↔
        ((∃ o n, old_settings.name = some o ∧ new_settings.name = some n ∧ n ≠ o) ∨
         (∃ o n, old_settings.description = some o ∧ new_settings.description = some n ∧ n ≠ o) ∨
         (∃ o n, old_settings.members_can_invite = some o ∧ new_settings.members_can_invite = some n ∧ n ≠ o) ∨
         (∃ o n, old_settings.discoverable = some o ∧ new_settings.discoverable = some n ∧ n ≠ o) ∨
         (∃ o n, old_settings.copy_protected = some o ∧ new_settings.copy_protected = some n ∧ n ≠ o) ∨
         (∃ o n, old_settings.view_history = some o ∧ new_settings.view_history = some n ∧ n ≠ o) ∨
         (∃ o n, old_settings.pinned_message_id = some o ∧ new_settings.pinned_message_id = some n ∧ n ≠ o))) ∧
    (∀ old_settings : V3RoomAttributes,
      _check_room_modified old_settings emptyRoomAttributes = false) := by
  constructor
  · intro old_settings new_settings
    simp [_check_room_modified, Bool.or_eq_true, fieldTriggers_eq_true_iff, or_assoc]
  · intro old_settings
    simp [_check_room_modified, emptyRoomAttributes, fieldTriggers_new_none]

/-- The CSV row used to exhibit the dropped `copyProtected` cell: only the
mandatory stream id and a `copyProtected` cell that parses to true. -/
def rowCopyProtectedTrue : CsvRow :=
  ⟨"STREAM", "", "", "", "", "true", "", ""⟩

/-- C7: a `copyProtected` cell parsing to boolean true is silently dropped
by the settings mapping.  The source comment on the `bool+` tag promises
that only a false value is ignored, but the assignment `val = None` at
source line 530 is not guarded by the parsed value, so even `true` is
discarded — the resulting attributes carry no `copy_protected` field.  The
claim (and the source comment documenting the intent) say the true value
must be carried through; the code contradicts them. -/
theorem csv_copy_protected_true_silently_dropped :
    _string_to_bool "true" = Except.ok true ∧
    _csv_room_settings_to_v3_room_attributes rowCopyProtectedTrue =
      Except.ok emptyRoomAttributes ∧
    emptyRoomAttributes.copy_protected = none := by
  decide

/-- C8: the CSV boolean parser lower-cases its input and accepts exactly
the true tokens and false tokens, raising on everything else; in
particular the mixed-case samples from the specification parse as
claimed and an unrecognised string fails. -/
theorem string_to_bool_characterization :
    (∀ s : String,
      _string_to_bool s =
        (if trueStrings.contains (pyLower s) then Except.ok true
         else if falseStrings.contains (pyLower s) then Except.ok false
         else Except.error ())) ∧
    _string_to_bool "YES" = Except.ok true ∧
    _string_to_bool "1" = Except.ok true ∧
    _string_to_bool "On" = Except.ok true ∧
    _string_to_bool "no" = Except.ok false ∧
    _string_to_bool "0" = Except.ok false ∧
    _string_to_bool "Off" = Except.ok false ∧
    _string_to_bool "maybe" = Except.error () ∧
    _string_to_bool "" = Except.error () := by
  refine ⟨fun s => rfl, ?_, ?_, ?_, ?_, ?_, ?_, ?_, ?_⟩ <;> decide

/-- C10: the CSV header layout depends on module-level mutable state.
After one `update_rooms_from_csv` call the global field-name list
permanently contains `status` and `reason`; a later export emits them; a
second `update_rooms_from_csv` call emits both twice in its header; and a
single extended export permanently adds the `(X)` columns to the global
list, none of which are in the initial list. -/
theorem csv_header_global_mutation :
    (update_rooms_from_csv_header CSV_STREAM_FIELD_NAMES_initial false).2.contains "status" = true ∧
    (update_rooms_from_csv_header CSV_STREAM_FIELD_NAMES_initial false).2.contains "reason" = true ∧
    (export_rooms_to_csv_header
      (update_rooms_from_csv_header CSV_STREAM_FIELD_NAMES_initial false).2 false).1.contains "status" = true ∧
    (update_rooms_from_csv_header
      (update_rooms_from_csv_header CSV_STREAM_FIELD_NAMES_initial false).2 false).1.count "status" = 2 ∧
    (update_rooms_from_csv_header
      (update_rooms_from_csv_header CSV_STREAM_FIELD_NAMES_initial false).2 false).1.count "reason" = 2 ∧
    (export_rooms_to_csv_header CSV_STREAM_FIELD_NAMES_initial true).2.contains "public (X)" = true ∧
    CSV_STREAM_FIELD_NAMES_initial.contains "status" = false ∧
    CSV_STREAM_FIELD_NAMES_initial.contains "public (X)" = false := by
  decide


/-- Attribute record with members-can-invite set, used by witnesses. -/
def attrsMciTrue : V3RoomAttributes :=
  { emptyRoomAttributes with members_can_invite := some true }

/-- Desired settings flipping members-can-invite off, used by witnesses. -/
def desiredMciFalse : V3RoomAttributes :=
  { emptyRoomAttributes with members_can_invite := some false }

/-- C1: every successful recovery path restores the bot's relation to the
room.  Promotion-only recovery (bot a member, another owner present) ends
with the bot demoted back to participant; membership recovery (bot not in
the room) ends with the bot removed again; and when the bot became the
room's sole owner the demotion failure is swallowed (logged) and the
outcome is still the successful update — in every case the returned detail
carries the applied settings. -/
theorem update_room_recovery_restores_bot_relation
    (fuel nA nC : Nat) (aA dA aB dB aC dC : V3RoomAttributes)
    (syA syB syC : V3RoomSystemInfo) (jA jB : Bool)
    (hA : _check_room_modified aA dA = true)
    (hB : _check_room_modified aB dB = true)
    (hC : _check_room_modified aC dC = true) :
    (update_room (fuel + 2) dA true ⟨⟨true, aA, syA, true, false, nA + 1, jA⟩, []⟩ =
      (Except.ok ⟨applySettingsAttrs aA dA, syA⟩,
        ⟨⟨true, applySettingsAttrs aA dA, syA, true, false, nA + 1, jA⟩,
          [Call.getInfo true, Call.applySettings false, Call.promote true,
           Call.applySettings true, Call.demote true]⟩)) ∧
    (update_room (fuel + 2) dB true ⟨⟨true, aB, syB, true, false, 0, jB⟩, []⟩ =
      (Except.ok ⟨applySettingsAttrs aB dB, syB⟩,
        ⟨⟨true, applySettingsAttrs aB dB, syB, true, true, 0, jB⟩,
          [Call.getInfo true, Call.applySettings false, Call.promote true,
           Call.applySettings true, Call.demote false]⟩)) ∧
    (update_room (fuel + 2) dC true ⟨⟨true, aC, syC, false, false, nC, true⟩, []⟩ =
      (Except.ok ⟨applySettingsAttrs aC dC, syC⟩,
        ⟨⟨true, applySettingsAttrs aC dC, syC, false, false, nC, true⟩,
          [Call.getInfo true, Call.applySettings false, Call.promote false,
           Call.addMember true, Call.promote true, Call.applySettings true,
           Call.removeMember true]⟩)) :=
  ⟨update_room_promotion_eval fuel nA aA dA syA jA hA,
   update_room_promotion_sole_owner_eval fuel aB dB syB jB hB,
   update_room_membership_eval fuel nC aC dC syC hC⟩

/-- C1 witness: the three recovery scenarios instantiated with
members-can-invite true flipped to false. -/
theorem update_room_recovery_restores_bot_relation_witness :
    ((update_room 2 desiredMciFalse true
        ⟨⟨true, attrsMciTrue, ⟨"R1"⟩, true, false, 1, true⟩, []⟩).2.world.botIsMember = true ∧
     (update_room 2 desiredMciFalse true
        ⟨⟨true, attrsMciTrue, ⟨"R1"⟩, true, false, 1, true⟩, []⟩).2.world.botIsOwner = false) ∧
    ((update_room 2 desiredMciFalse true
        ⟨⟨true, attrsMciTrue, ⟨"R2"⟩, true, false, 0, true⟩, []⟩).1 =
      Except.ok ⟨applySettingsAttrs attrsMciTrue desiredMciFalse, ⟨"R2"⟩⟩) ∧
    ((update_room 2 desiredMciFalse true
        ⟨⟨true, attrsMciTrue, ⟨"R3"⟩, false, false, 1, true⟩, []⟩).2.world.botIsMember = false ∧
     (update_room 2 desiredMciFalse true
        ⟨⟨true, attrsMciTrue, ⟨"R3"⟩, false, false, 1, true⟩, []⟩).2.world.botIsOwner = false) := by
  obtain ⟨h1, h2, h3⟩ :=
    update_room_recovery_restores_bot_relation 0 0 1 attrsMciTrue desiredMciFalse
      attrsMciTrue desiredMciFalse attrsMciTrue desiredMciFalse ⟨"R1"⟩ ⟨"R2"⟩ ⟨"R3"⟩ true true
      (by decide) (by decide) (by decide)
  exact ⟨⟨by rw [h1], by rw [h1]⟩, by rw [h2], ⟨by rw [h3], by rw [h3]⟩⟩

/-- C3: for a room the bot neither belongs to nor owns whose settings
differ from the desired ones, the engine performs exactly the sequence
applySettings (fails, not an owner) → promoteToOwner (fails, not a
member) → addMember → promoteToOwner → applySettings → removeMember and
returns the updated detail; with the default pre-check the sequence is
preceded by the single getRoomDetail fetch. -/
theorem update_room_not_member_call_sequence
    (fuel nOwn : Nat) (a settings : V3RoomAttributes) (sy : V3RoomSystemInfo)
    (hmod : _check_room_modified a settings = true) :
    (update_room (fuel + 2) settings false ⟨⟨true, a, sy, false, false, nOwn, true⟩, []⟩ =
      (Except.ok ⟨applySettingsAttrs a settings, sy⟩,
        ⟨⟨true, applySettingsAttrs a settings, sy, false, false, nOwn, true⟩,
          [Call.applySettings false, Call.promote false, Call.addMember true,
           Call.promote true, Call.applySettings true, Call.removeMember true]⟩)) ∧
    (update_room (fuel + 2) settings true ⟨⟨true, a, sy, false, false, nOwn, true⟩, []⟩ =
      (Except.ok ⟨applySettingsAttrs a settings, sy⟩,
        ⟨⟨true, applySettingsAttrs a settings, sy, false, false, nOwn, true⟩,
          [Call.getInfo true, Call.applySettings false, Call.promote false,
           Call.addMember true, Call.promote true, Call.applySettings true,
           Call.removeMember true]⟩)) :=
  ⟨update_room_membership_eval_nopre fuel nOwn a settings sy,
   update_room_membership_eval fuel nOwn a settings sy hmod⟩

/-- C3 witness: the scenario with membersCanInvite true flipped to false;
the outcome carries membersCanInvite=false and the trace is exactly the
claimed sequence. -/
theorem update_room_not_member_call_sequence_witness :
    (update_room 2 desiredMciFalse true
        ⟨⟨true, attrsMciTrue, ⟨"R"⟩, false, false, 1, true⟩, []⟩).2.trace =
      [Call.getInfo true, Call.applySettings false, Call.promote false, Call.addMember true,
       Call.promote true, Call.applySettings true, Call.removeMember true] ∧
    (update_room 2 desiredMciFalse true
        ⟨⟨true, attrsMciTrue, ⟨"R"⟩, false, false, 1, true⟩, []⟩).1 =
      Except.ok ⟨applySettingsAttrs attrsMciTrue desiredMciFalse, ⟨"R"⟩⟩ ∧
    (applySettingsAttrs attrsMciTrue desiredMciFalse).members_can_invite = some false := by
  obtain ⟨h1, h2⟩ :=
    update_room_not_member_call_sequence 0 1 attrsMciTrue desiredMciFalse ⟨"R"⟩ (by decide)
  exact ⟨by rw [h2], by rw [h2], by decide⟩

/-- C5: with pre-check the engine first fetches the current state and, when
the modification predicate reports no difference, returns it with no
further gateway call; and after any successful first call a second call
with the same desired settings issues only the fetch (it skips), the first
call having issued at most one successful settings write. -/
theorem update_room_precheck_idempotent (fuel : Nat) (settings : V3RoomAttributes) (w : World) :
    (w.roomExists = true → _check_room_modified w.attrs settings = false →
      update_room (fuel + 1) settings true ⟨w, []⟩ =
        (Except.ok ⟨w.attrs, w.sys⟩, ⟨w, [Call.getInfo true]⟩)) ∧
    (∀ (d : V3RoomDetail) (s1 : St),
      update_room fuel settings true ⟨w, []⟩ = (Except.ok d, s1) →
      update_room (fuel + 1) settings true ⟨s1.world, []⟩ =
        (Except.ok ⟨s1.world.attrs, s1.world.sys⟩, ⟨s1.world, [Call.getInfo true]⟩) ∧
      applyOkCount s1.trace ≤ 1) := by
  constructor
  · intro hex hmod
    exact update_room_skip_eval fuel settings w hex hmod
  · intro d s1 h
    have hInv := update_room_run_invariant fuel settings true ⟨w, []⟩
    rw [h] at hInv
    dsimp only [RunInvariant] at hInv
    obtain ⟨hex1, hmod1, hcount⟩ := hInv
    refine ⟨update_room_skip_eval fuel settings s1.world hex1 hmod1, ?_⟩
    simpa [show applyOkCount [] = 0 from rfl] using hcount

/-- World for the C5 witness: an existing room the bot owns whose
discoverable flag differs from the desired value. -/
def wPrecheckWit : World :=
  ⟨true, { emptyRoomAttributes with discoverable := some true }, ⟨"W"⟩, true, true, 1, true⟩

/-- Desired settings for the C5 witness. -/
def desiredPrecheckWit : V3RoomAttributes :=
  { emptyRoomAttributes with discoverable := some false }

/-- Detail returned by the first C5 witness call. -/
def dPrecheckWit : V3RoomDetail :=
  ⟨applySettingsAttrs wPrecheckWit.attrs desiredPrecheckWit, ⟨"W"⟩⟩

/-- Engine state after the first C5 witness call. -/
def stPrecheckWit : St :=
  ⟨{ wPrecheckWit with attrs := applySettingsAttrs wPrecheckWit.attrs desiredPrecheckWit },
    [Call.getInfo true, Call.applySettings true]⟩

/-- C5 witness: after the concrete first update, the second call skips. -/
theorem update_room_precheck_idempotent_witness :
    (update_room 2 desiredPrecheckWit true ⟨stPrecheckWit.world, []⟩ =
      (Except.ok ⟨stPrecheckWit.world.attrs, stPrecheckWit.world.sys⟩,
        ⟨stPrecheckWit.world, [Call.getInfo true]⟩) ∧
     applyOkCount stPrecheckWit.trace ≤ 1) ∧
    update_room 1 desiredPrecheckWit true ⟨stPrecheckWit.world, []⟩ =
      (Except.ok ⟨stPrecheckWit.world.attrs, stPrecheckWit.world.sys⟩,
        ⟨stPrecheckWit.world, [Call.getInfo true]⟩) :=
  ⟨(update_room_precheck_idempotent 1 desiredPrecheckWit wPrecheckWit).2
     dPrecheckWit stPrecheckWit (by decide),
   (update_room_precheck_idempotent 0 desiredPrecheckWit stPrecheckWit.world).1
     (by decide) (by decide)⟩

/-- Current attributes of the batch rooms in the C2 scenario. -/
def attrsBatch : V3RoomAttributes := { emptyRoomAttributes with discoverable := some true }

/-- Desired settings of the C2 batch scenario. -/
def desiredBatch : V3RoomAttributes := { emptyRoomAttributes with discoverable := some false }

/-- Environment of the C2 batch scenario: rooms A and C exist and the bot
owns them, so their updates succeed directly; room B does not exist, so its
pre-check fetch fails with a reason the engine does not recognise and the
exception reaches the bulk driver. -/
def envABC : Env := fun i =>
  if i = "B" then ⟨false, attrsBatch, ⟨"B"⟩, false, false, 0, false⟩
  else ⟨true, attrsBatch, ⟨i⟩, true, true, 1, true⟩

/-- The three input rooms of the C2 scenario. -/
def streamsABC : List V2AdminStreamInfo :=
  [⟨"A", "Room A"⟩, ⟨"B", "Room B"⟩, ⟨"C", "Room C"⟩]

/-- C2, counterexample: for rooms [A, B, C] where B's reconciliation raises
with an unrecognised reason and A and C succeed, the bulk driver returns
only TWO results — the failing room produces a log entry but no per-room
outcome in the returned list, refuting one-outcome-per-input-room (and the
claimed [Updated, Failed, Updated] shape). -/
theorem update_rooms_failed_room_yields_no_outcome :
    streamsABC.length = 3 ∧
    (update_rooms 2 streamsABC desiredBatch true envABC).1 =
      [⟨applySettingsAttrs attrsBatch desiredBatch, ⟨"A"⟩⟩,
       ⟨applySettingsAttrs attrsBatch desiredBatch, ⟨"C"⟩⟩] ∧
    (update_rooms 2 streamsABC desiredBatch true envABC).1.length = 2 := by
  decide

/-- C2, amended: the bulk driver is total (it never propagates a per-room
failure) and processes every room, continuing past failures; but it
records an outcome only for the rooms whose update succeeded, in input
order — so the three-room scenario with B failing yields the two success
outcomes [A, C], not three outcomes. -/
theorem update_rooms_skips_failures_and_continues :
    (∀ (fuel : Nat) (streams : List V2AdminStreamInfo) (settings : V3RoomAttributes)
        (pc : Bool) (env : Env),
      (update_rooms fuel streams settings pc env).1.length ≤ streams.length) ∧
    (update_rooms 2 streamsABC desiredBatch true envABC).1 =
      [⟨applySettingsAttrs attrsBatch desiredBatch, ⟨"A"⟩⟩,
       ⟨applySettingsAttrs attrsBatch desiredBatch, ⟨"C"⟩⟩] := by
  constructor
  · intro fuel streams settings pc env
    induction streams generalizing env with
    | nil => simp [update_rooms]
    | cons s rest ih =>
      rw [update_rooms]
      rcases hout : update_room fuel settings pc ⟨env (_make_b64_id_safe s.id), []⟩ with ⟨r, s1⟩
      cases r with
      | ok upd =>
        simp only [hout, List.length_cons]
        exact Nat.succ_le_succ (ih _)
      | error e =>
        simp only [hout, List.length_cons]
        exact Nat.le_succ_of_le (ih _)
  · decide

/-- Room whose description carries a leading space, breaking the CSV
round trip. -/
def roomLeadingSpace : V3RoomDetail :=
  ⟨{ emptyRoomAttributes with description := some " padded" }, ⟨"RID"⟩⟩

/-- C9, counterexample: exporting a room whose description has a leading
space and re-importing the unmodified CSV does *not* compare clean — the
cell pipeline strips the space, the parsed description differs from the
stored one, and the modification predicate reports a change (the row would
be updated, not SKIPPED). -/
theorem csv_round_trip_not_skipped_counterexample :
    _csv_room_settings_to_v3_room_attributes (_room_details_to_csv_dict roomLeadingSpace) =
      Except.ok { emptyRoomAttributes with description := some "padded" } ∧
    _check_room_modified roomLeadingSpace.room_attributes
      { emptyRoomAttributes with description := some "padded" } = true := by
  decide

/-- C9, amended: the export/import round trip reports no modification for
every room whose string-valued attributes (name, description, pinned
message id) are unchanged by cell parsing — no leading or trailing
whitespace and not a literal two-quote cell.  Boolean attributes always
round-trip; the (dropped) copyProtected field and absent fields never
trigger. -/
theorem csv_round_trip_clean_strings_skipped (room : V3RoomDetail)
    (hn : cleanCellString room.room_attributes.name = true)
    (hd : cleanCellString room.room_attributes.description = true)
    (hp : cleanCellString room.room_attributes.pinned_message_id = true) :
    ∃ parsed : V3RoomAttributes,
      _csv_room_settings_to_v3_room_attributes (_room_details_to_csv_dict room) =
        Except.ok parsed ∧
      _check_room_modified room.room_attributes parsed = false := by
  refine ⟨{ name := parseStringCell "string*" (cellOfOptString room.room_attributes.name)
            description := parseStringCell "string" (cellOfOptString room.room_attributes.description)
            members_can_invite := room.room_attributes.members_can_invite
            discoverable := room.room_attributes.discoverable
            copy_protected := none
            view_history := room.room_attributes.view_history
            pinned_message_id :=
              parseStringCell "string_b64" (cellOfOptString room.room_attributes.pinned_message_id) },
    ?_, ?_⟩
  · simp [_csv_room_settings_to_v3_room_attributes, _room_details_to_csv_dict,
      bool_cell_roundtrip, bool_plus_cell_dropped]
  · simp [_check_room_modified,
      string_cell_roundtrip "string*" (by decide) _ hn,
      string_cell_roundtrip "string" (by decide) _ hd,
      string_cell_roundtrip "string_b64" (by decide) _ hp,
      fieldTriggers_self, fieldTriggers_new_none]

/-- Room used by the C9 witness: clean string fields, both booleans set,
copy protection on, pinned message id with base64 padding. -/
def roomRoundTripWit : V3RoomDetail :=
  ⟨{ name := some "Ops Room", description := some "team room",
     members_can_invite := some true, discoverable := some false,
     copy_protected := some true, view_history := none,
     pinned_message_id := some "abc123=" }, ⟨"RID"⟩⟩

/-- C9 witness: the round trip of the concrete room parses and reports no
modification. -/
theorem csv_round_trip_clean_strings_skipped_witness :
    ∃ parsed : V3RoomAttributes,
      _csv_room_settings_to_v3_room_attributes (_room_details_to_csv_dict roomRoundTripWit) =
        Except.ok parsed ∧
      _check_room_modified roomRoundTripWit.room_attributes parsed = false :=
  csv_round_trip_clean_strings_skipped roomRoundTripWit (by decide) (by decide) (by decide)

end SymphonyRoomModifier
